import Mathlib

/-
Verification of the automation scheduler in richardview
(src/richardview/_system/_automation_widget.py).

Modelling conventions (shallow embedding):
* Wall-clock timestamps and all second counts are modelled as `Int`.
  Python's `time.time()` returns a float; the code rounds every derived
  count with `int(round(...))`, so integer seconds are the observable
  granularity.  With integer timestamps `int(round(a - b))` is `a - b`.
* Python exceptions are modelled by returning the pair
  `(state-so-far, Option String)`: `some msg` means the call raised after
  having performed the state mutations done so far (Python mutations on
  `self` persist when an exception propagates).
* Queued actions (`lambda_list` entries) are modelled by the inductive
  `AutoAction`; executing one yields an `ActionResult` which either
  succeeds with a list of observable events or raises.  The try/except
  in `_update_tasks` turns a raise into a logged event.
* List indexing `xs[i]` is modelled by `List.get?` (raising `IndexError`
  when out of range) where the source has no dominating bounds guard,
  and by `List.getD`/`List.headD` where the source guards the access.
* tkinter `StringVar` readouts are kept as plain `String` fields of the
  state; `str(timedelta(seconds=n))` is modelled by `timedeltaStr`.
* `root.after(ms, ...)` scheduling is modelled by the `next : Option Int`
  component of a tick's result: `none` means no further tick was
  scheduled, `some ms` means one was scheduled after `ms` milliseconds.
-/

namespace RichardView

/-- A queued automation action (an entry of `lambda_list`).  `userOk` and
`userThrows` model arbitrary user callables passed to `schedule_function`
(the latter raising when called); `setField` models the closure built by
`schedule_action` via `_schedule_helper`. -/
inductive AutoAction where
  | userOk (id : Nat)
  | userThrows (id : Nat)
  | setField (nick field value : String) (confirm : Bool)
  deriving DecidableEq

/-- Observable events produced while executing queued actions. -/
inductive Event where
  | ran (id : Nat)
  | errorLogged (idx : Nat)
  | fieldSet (nick field value : String) (confirmed : Bool)
  deriving DecidableEq

/-- The mutable state of `AutomationWidget` (the fields set up in
`__init__`, lines 25-61 of `_automation_widget.py`). -/
structure AutoState where
  delay_for_loading : Int
  delay_list : List Int
  absolute_time_list : List Int
  lambda_list : List AutoAction
  automation_index : Nat
  seconds_to_next_task : Int
  time_to_go : Int
  pause_tasks : Bool
  end_time : Int
  file_loaded : String
  lines_loaded : String
  step_countdown_readout : String
  time_to_go_readout : String
  automation_running_label : String
  start_button_text : String
  deriving DecidableEq

/-- `_buttons_running_mode` (only the StringVar effects are modelled). -/
def buttons_running_mode (s : AutoState) : AutoState :=
  { s with automation_running_label := ("(running)"), start_button_text := ("Start") }

/-- `_buttons_paused_mode` (only the StringVar effects are modelled). -/
def buttons_paused_mode (s : AutoState) : AutoState :=
  { s with automation_running_label := ("(paused)"), start_button_text := ("Resume") }

/-- `_buttons_stopped_mode` (only the StringVar effects are modelled). -/
def buttons_stopped_mode (s : AutoState) : AutoState :=
  { s with automation_running_label := ("(stopped)"), start_button_text := ("Start") }

/-- Zero-pad a number in [0, 60) to two digits, as `str(timedelta(...))`
does for the minute and second components. -/
def pad2 (n : Int) : String :=
  if n < 10 then ("0") ++ toString n else toString n

/-- Python's `str(timedelta(seconds=n))` for integer `n`. -/
def timedeltaStr (secs : Int) : String :=
  let days := secs.fdiv 86400
  let r := secs.fmod 86400
  let h := r.fdiv 3600
  let m := (r.fmod 3600).fdiv 60
  let s2 := r.fmod 60
  let base := toString h ++ (":") ++ pad2 m ++ (":") ++ pad2 s2
  if days = 0 then base
  else if days = 1 ∨ days = -1 then toString days ++ (" day, ") ++ base
  else toString days ++ (" days, ") ++ base

/-- The widget state right after `__init__` (lines 25-61). -/
def initState : AutoState :=
  { delay_for_loading := 0
    delay_list := []
    absolute_time_list := []
    lambda_list := []
    automation_index := 0
    seconds_to_next_task := 0
    time_to_go := 0
    pause_tasks := true
    end_time := 0
    file_loaded := ("No file loaded.")
    lines_loaded := ("")
    step_countdown_readout := ("0:00:00")
    time_to_go_readout := ("0:00:00")
    automation_running_label := ("(stopped)")
    start_button_text := ("Start") }

/-- Auxiliary structural recursion behind `pySplit`. -/
def pySplitAux (c : Char) : List Char → List Char → List String
  | [], acc => [String.mk acc.reverse]
  | x :: xs, acc =>
    if x = c then String.mk acc.reverse :: pySplitAux c xs []
    else pySplitAux c xs (x :: acc)

/-- Python's `str.split(sep)` for a one-character separator (used by
`schedule_delay` with `sep = ":"` and by the load routine with `"/"`). -/
def pySplit (s : String) (c : Char) : List String :=
  pySplitAux c s.data []

/-- Characters Python's `int(str)` strips around a number: the Latin-1
part of `Py_UNICODE_ISSPACE` (tab through carriage return, the
file/group/record/unit separators 0x1C-0x1F, space, NEL 0x85 and
no-break space 0xA0). -/
def isPySpace (c : Char) : Bool :=
  decide ((9 ≤ c.toNat ∧ c.toNat ≤ 13) ∨ (28 ≤ c.toNat ∧ c.toNat ≤ 31)
    ∨ c.toNat = 32 ∨ c.toNat = 133 ∨ c.toNat = 160)

/-- Drop leading whitespace characters. -/
def dropLeadingSpace : List Char → List Char
  | [] => []
  | c :: rest => if isPySpace c then dropLeadingSpace rest else c :: rest

/-- Strip leading and trailing whitespace, as `int(str)` does before
parsing. -/
def pyStrip (l : List Char) : List Char :=
  (dropLeadingSpace ((dropLeadingSpace l).reverse)).reverse

/-- Continue a digit run: after a digit, either another digit follows,
or a single underscore that must itself be followed by a digit
(Python's `int` accepts `"5_0"` but rejects `"5_"`, `"_5"` and
`"5__0"`). -/
def digitsUAux : List Char → Nat → Option Nat
  | [], acc => some acc
  | '_' :: c :: rest, acc =>
    if c.isDigit then digitsUAux rest (acc * 10 + (c.toNat - 48)) else none
  | ['_'], _ => none
  | c :: rest, acc =>
    if c.isDigit then digitsUAux rest (acc * 10 + (c.toNat - 48)) else none

/-- A non-empty run of digits with single underscores allowed between
digits, or `none`. -/
def digitsU? : List Char → Option Nat
  | [] => none
  | c :: rest => if c.isDigit then digitsUAux rest (c.toNat - 48) else none

/-- Python's `int(str)`: strip surrounding whitespace, accept an
optional sign, then digits with single underscores between digits;
`none` models `ValueError`.  The model covers the Latin-1 fragment of
`int()` exactly — every string it accepts, `int()` accepts with the same
value, so `int(" 5") = 5` and `int("5_0") = 50` are reproduced; the
non-ASCII decimal digits and the few remaining Unicode space characters
that `int()` also tolerates are outside the model, so no theorem below
relies on `pyInt?` rejecting a string. -/
def pyInt? (s : String) : Option Int :=
  match pyStrip s.data with
  | '-' :: rest => (digitsU? rest).map (fun n => -(n : Int))
  | '+' :: rest => (digitsU? rest).map (fun n => (n : Int))
  | l => (digitsU? l).map (fun n => (n : Int))

/-- The parse performed by `schedule_delay` (lines 87-88): split on ":",
unpack exactly three components, convert each with `int`, combine as
`3600*h + 60*m + s`.  `none` models the `ValueError` raised by a failed
unpack or conversion. -/
def parseDelaySecs? (delay : String) : Option Int :=
  match pySplit delay ':' with
  | [h, m, s] =>
    match pyInt? h, pyInt? m, pyInt? s with
    | some hv, some mv, some sv => some (3600 * hv + 60 * mv + sv)
    | _, _, _ => none
  | _ => none

/-- `schedule_delay` (lines 77-89): parse the duration string and add it
to the pending-delay accumulator; a parse failure raises. -/
def schedule_delay (delay : String) (s : AutoState) : AutoState × Option String :=
  match parseDelaySecs? delay with
  | some v => ({ s with delay_for_loading := s.delay_for_loading + v }, none)
  | none => (s, some ("ValueError"))

/-- `schedule_function` (lines 91-108): if the queue is empty, seed
`seconds_to_next_task` with the accumulator; append the accumulator to
`delay_list` and the callable to `lambda_list`; reset the accumulator;
recompute `time_to_go` as the sum of all queued delays. -/
def schedule_function (f : AutoAction) (s : AutoState) : AutoState :=
  let s1 := if s.delay_list.length = 0 then { s with seconds_to_next_task := s.delay_for_loading } else s
  let dl := s1.delay_list ++ [s1.delay_for_loading]
  { s1 with delay_list := dl
            delay_for_loading := 0
            lambda_list := s1.lambda_list ++ [f]
            time_to_go := dl.sum }

/-- The dashboard's `widgets_by_nickname` mapping, reduced to what
`schedule_action` consults: each widget's `attributes.keys()`. -/
def lookupWidget (dash : List (String × List String)) (nick : String) : Option (List String) :=
  (dash.find? (fun p => p.1 = nick)).map (fun p => p.2)

/-- `schedule_action` (lines 110-136): resolve the nickname (a missing
one raises `KeyError`), check the field against the target's attribute
keys (raising at load time when absent, before anything is queued), and
otherwise queue the field-mutation closure via `schedule_function`. -/
def schedule_action (dash : List (String × List String)) (nick field value : String)
    (confirm : Bool) (s : AutoState) : AutoState × Option String :=
  match lookupWidget dash nick with
  | none => (s, some ("KeyError"))
  | some attrs =>
    if field ∈ attrs then
      (schedule_function (AutoAction.setField nick field value confirm) s, none)
    else
      (s, some ("Exception: cannot find the specified field to automate."))

/-- Result of calling a queued action: the events it produced, and
whether it raised. -/
inductive ActionResult where
  | success (evs : List Event)
  | raised (evs : List Event)
  deriving DecidableEq

/-- Calling one queued action (the `execute_me(...)` call of lines
169-172; the zero- vs one-argument dispatch is not observable here). -/
def callAction : AutoAction → ActionResult
  | AutoAction.userOk id => ActionResult.success [Event.ran id]
  | AutoAction.userThrows _ => ActionResult.raised []
  | AutoAction.setField n f v c => ActionResult.success [Event.fieldSet n f v c]

/-- The try/except of lines 168-175: a raise from the action is caught
and logged (traceback printed), and the tick continues either way. -/
def execEvents (a : AutoAction) (idx : Nat) : List Event :=
  match callAction a with
  | ActionResult.success evs => evs
  | ActionResult.raised evs => evs ++ [Event.errorLogged idx]

/-- "K/N steps done." as set on `lines_loaded` (lines 177, 187, 264, 289). -/
def linesDone (k n : Nat) : String :=
  toString k ++ ("/") ++ toString n ++ (" steps done.")

/-- The outcome of one `_update_tasks` invocation: the new state, the
events produced by any executed action, and the `root.after` delay of
the next scheduled tick (`none` when no tick was scheduled). -/
structure TickResult where
  state : AutoState
  events : List Event
  next : Option Int
  deriving DecidableEq

/-- The common suffix of `_update_tasks` (lines 194-200): schedule the
next tick immediately when the countdown is non-positive, otherwise
after one polling interval (1000 ms) while refreshing `time_to_go` from
`end_time`; then refresh both readouts. -/
def tickTail (s : AutoState) (now : Int) (evs : List Event) : TickResult :=
  if s.seconds_to_next_task ≤ 0 then
    ⟨{ s with step_countdown_readout := timedeltaStr s.seconds_to_next_task
              time_to_go_readout := timedeltaStr s.time_to_go }, evs, some 0⟩
  else
    let s2 := { s with time_to_go := s.end_time - now }
    ⟨{ s2 with step_countdown_readout := timedeltaStr s2.seconds_to_next_task
               time_to_go_readout := timedeltaStr s2.time_to_go }, evs, some 1000⟩

/-- The end-of-script reset of lines 178-189 (reached when the
incremented index has run off the end of the queue). -/
def finishReset (s : AutoState) : AutoState :=
  let sstt : Int := if s.delay_list.length = 0 then 0 else s.delay_list.headD 0
  let ttg : Int := s.delay_list.sum
  { (buttons_stopped_mode
      { s with automation_index := 0
               seconds_to_next_task := sstt
               time_to_go := ttg
               pause_tasks := true
               step_countdown_readout := timedeltaStr sstt
               time_to_go_readout := timedeltaStr ttg }) with
    automation_running_label := ("(finished!)")
    lines_loaded := linesDone 0 s.delay_list.length }

/-- `_update_tasks` (lines 159-200).  A paused tick is inert.  Otherwise
the current step's deadline is read (Python would raise `IndexError` out
of range); a due step's action is called under try/except, the index is
incremented and either the finished reset runs (no further tick) or the
countdown is reloaded from the new step's raw relative delay; a
not-yet-due tick recomputes the countdown from the deadline. -/
def update_tasks (s : AutoState) (now : Int) : Except String TickResult :=
  if s.pause_tasks = true then Except.ok ⟨s, [], none⟩
  else
    match s.absolute_time_list.get? s.automation_index with
    | none => Except.error ("IndexError")
    | some deadline =>
      if now > deadline then
        match s.lambda_list.get? s.automation_index with
        | none => Except.error ("IndexError")
        | some act =>
          let evs := execEvents act s.automation_index
          let idx := s.automation_index + 1
          let s1 := { s with automation_index := idx
                             lines_loaded := linesDone idx s.delay_list.length }
          if s1.delay_list.length ≤ s1.automation_index then
            Except.ok ⟨finishReset s1, evs, none⟩
          else
            Except.ok (tickTail
              { s1 with seconds_to_next_task := s1.delay_list.getD s1.automation_index 0 }
              now evs)
      else
        Except.ok (tickTail { s with seconds_to_next_task := deadline - now } now [])

/-- The relative-times loop of `_start_automated_tasks` (lines 214-219):
starting from `idx` zeros followed by `seconds_to_next_task`, append
`delay_list[i] + rel_times[i-1]` for each remaining index.  The current
list length plays the role of the loop variable `i`, so `rel_times[i-1]`
is the element at position `length - 1`. -/
def relTimesLoop (ds : List Int) (rel : List Int) : Nat → List Int
  | 0 => rel
  | n + 1 => relTimesLoop ds (rel ++ [ds.getD rel.length 0 + rel.getD (rel.length - 1) 0]) n

/-- The state built by `_start_automated_tasks` just before its closing
`self._update_tasks()` call (lines 213-224): absolute deadlines anchored
at `t0`, `end_time` from the last deadline, running-mode labels, and the
pause flag cleared. -/
def startPrep (t0 : Int) (s : AutoState) : AutoState :=
  let rel := relTimesLoop s.delay_list
    ((List.replicate s.automation_index (0 : Int)) ++ [s.seconds_to_next_task])
    (s.delay_list.length - (s.automation_index + 1))
  let abs := rel.map (fun t => t + t0)
  { (buttons_running_mode
      { s with absolute_time_list := abs
               end_time := abs.getD (abs.length - 1) 0 }) with
    pause_tasks := false }

/-- `_start_automated_tasks` (lines 202-225): refuse (via messagebox,
with no state change and no tick) when no script is loaded or serial is
closed, otherwise plan deadlines and run the first tick at `t0`. -/
def start_automated_tasks (serial_connected : Bool) (t0 : Int) (s : AutoState) :
    Except String TickResult :=
  if s.delay_list.length = 0 then Except.ok ⟨s, [], none⟩
  else if serial_connected = false then Except.ok ⟨s, [], none⟩
  else update_tasks (startPrep t0 s) t0

/-- `_pause_automated_tasks` (lines 273-277): flip to paused-mode labels
and set the pause flag; nothing else is touched. -/
def pause_automated_tasks (s : AutoState) : AutoState :=
  { (buttons_paused_mode s) with pause_tasks := true }

/-- `_stop_automated_tasks` (lines 279-289): reset the index, recompute
`time_to_go`, and reload `seconds_to_next_task` from `delay_list[0]` —
an unguarded read that raises `IndexError` on an empty queue (after the
mutations preceding it have taken effect). -/
def stop_automated_tasks (s : AutoState) : AutoState × Option String :=
  let s1 := buttons_stopped_mode s
  let s2 := { s1 with pause_tasks := true
                      automation_index := 0
                      time_to_go := s1.delay_list.sum }
  match s2.delay_list.head? with
  | none => (s2, some ("IndexError"))
  | some d0 =>
    ({ s2 with seconds_to_next_task := d0
               step_countdown_readout := timedeltaStr d0
               time_to_go_readout := timedeltaStr s2.delay_list.sum
               lines_loaded := linesDone 0 s2.delay_list.length }, none)

/-- One statement of an automation script, i.e. one call to a scheduling
primitive made while `exec(script, ...)` runs (lines 255-257). -/
inductive ScriptStmt where
  | delay (d : String)
  | func (f : AutoAction)
  | action (nick field value : String) (confirm : Bool)
  deriving DecidableEq

/-- Interpret one script statement against the widget state. -/
def runStmt (dash : List (String × List String)) :
    ScriptStmt → AutoState → AutoState × Option String
  | ScriptStmt.delay d, s => schedule_delay d s
  | ScriptStmt.func f, s => (schedule_function f s, none)
  | ScriptStmt.action n f v c, s => schedule_action dash n f v c s

/-- Run a script statement by statement, stopping at the first raise;
mutations made before the raise persist (Python `exec` semantics). -/
def runScript (dash : List (String × List String)) :
    List ScriptStmt → AutoState → AutoState × Option String
  | [], s => (s, none)
  | stmt :: rest, s =>
    match runStmt dash stmt s with
    | (s1, none) => runScript dash rest s1
    | (s1, some e) => (s1, some e)

/-- The reset block at the top of `_load_automation_file` (lines
236-248), run before the script is interpreted. -/
def resetForLoad (s : AutoState) : AutoState :=
  { (buttons_stopped_mode
      { s with delay_for_loading := 0
               delay_list := []
               absolute_time_list := []
               lambda_list := []
               automation_index := 0
               seconds_to_next_task := 0
               time_to_go := 0
               pause_tasks := true }) with
    step_countdown_readout := timedeltaStr 0
    time_to_go_readout := timedeltaStr 0
    file_loaded := ("No file loaded.")
    lines_loaded := ("") }

/-- `_load_automation_file` (lines 227-269): reset, interpret the script
(an error is caught, a messagebox shown, and the method returns with the
state as the failed interpretation left it), then on success set the
display fields and seed the countdown from step 0's raw delay. -/
def load_automation_file (dash : List (String × List String)) (script : List ScriptStmt)
    (filename : String) (s : AutoState) : AutoState × Option String :=
  let s0 := resetForLoad s
  let f := (pySplit filename '/').getLastD filename
  match runScript dash script s0 with
  | (s1, some e) => (s1, some e)
  | (s1, none) =>
    let sstt : Int := if s1.delay_list.length = 0 then 0 else s1.delay_list.headD 0
    ({ s1 with file_loaded := ("Loaded: ") ++ f
               lines_loaded := linesDone 0 s1.delay_list.length
               time_to_go := s1.delay_list.sum
               seconds_to_next_task := sstt
               step_countdown_readout := timedeltaStr sstt
               time_to_go_readout := timedeltaStr s1.delay_list.sum }, none)

/-- A sequence of consecutive `schedule_delay` calls (as a script makes
before a `schedule_function`), stopping at the first raise. -/
def applyDelays : List String → AutoState → AutoState × Option String
  | [], s => (s, none)
  | d :: ds, s =>
    match schedule_delay d s with
    | (s1, none) => applyDelays ds s1
    | (s1, some e) => (s1, some e)

/-- Run `k + 1` consecutive ticks all observed at wall-clock time `now`,
returning the last tick's result (the chain stops early on a raise). -/
def runTicks (now : Int) : Nat → AutoState → Except String TickResult
  | 0, s => update_tasks s now
  | n + 1, s => (update_tasks s now).bind (fun r => runTicks now n r.state)

/-- Project a field out of a tick outcome, `none` when the tick raised. -/
def tickField {α : Type} (f : TickResult → α) : Except String TickResult → Option α
  | Except.ok r => some (f r)
  | Except.error _ => none

/-- Load a script, start it at `t0`, then run enough further ticks (all
observed at time `now`) to walk the whole queue: one tick per step, the
first of them being the tick embedded in `_start_automated_tasks`. -/
def loadStartRun (dash : List (String × List String)) (script : List ScriptStmt)
    (filename : String) (s : AutoState) (t0 now : Int) : Except String TickResult :=
  (start_automated_tasks true t0 (load_automation_file dash script filename s).1).bind
    (fun r => runTicks now
      ((load_automation_file dash script filename s).1.delay_list.length - 1) r.state)

/-- A mid-run state: two steps with relative delays 0 and 5, deadlines 0
and 5, cursor on step 0, not paused. -/
def c2State : AutoState :=
  { initState with delay_list := [0, 5]
                   lambda_list := [AutoAction.userOk 0, AutoAction.userOk 1]
                   absolute_time_list := [0, 5]
                   automation_index := 0
                   pause_tasks := false
                   end_time := 5 }

/-- A mid-run state whose current step's action raises when called. -/
def c5State : AutoState :=
  { initState with delay_list := [0, 5]
                   lambda_list := [AutoAction.userThrows 7, AutoAction.userOk 1]
                   absolute_time_list := [0, 5]
                   automation_index := 0
                   pause_tasks := false
                   end_time := 5 }

/-- The state after loading the two-step script `[f_throws, f_ok]` with
no delays. -/
def c5Loaded : AutoState :=
  (load_automation_file []
    [ScriptStmt.func (AutoAction.userThrows 0), ScriptStmt.func (AutoAction.userOk 1)]
    ("s") initState).1

/-- Start `[f_throws, f_ok]` at time 0 and tick once at time 1: the tick
that calls the raising action. -/
def c5Mid : Except String TickResult :=
  (start_automated_tasks true 0 c5Loaded).bind (fun r => update_tasks r.state 1)

/-- One more tick at time 1: the tick that calls `f_ok` and finishes. -/
def c5Run : Except String TickResult :=
  c5Mid.bind (fun r => update_tasks r.state 1)

/-- A loaded three-step queue paused mid-run: cursor on step 1 with 7
seconds left on its countdown. -/
def c3State : AutoState :=
  { initState with delay_list := [2, 3, 4]
                   lambda_list := [AutoAction.userOk 0, AutoAction.userOk 1, AutoAction.userOk 2]
                   automation_index := 1
                   seconds_to_next_task := 7 }

/-! ### Helper lemmas: in-bounds list access -/

lemma get?_some_of_lt {α : Type} (l : List α) (n : Nat) (h : n < l.length) :
    ∃ a, l.get? n = some a := by
  cases hg : l.get? n with
  | none => exact absurd (List.get?_eq_none.mp hg) (by omega)
  | some a => exact ⟨a, rfl⟩

/-! ### Helper lemmas: the relative-times loop of the deadline planner -/

lemma relTimesLoop_length (ds : List Int) :
    ∀ (n : Nat) (rel : List Int), (relTimesLoop ds rel n).length = rel.length + n := by
  intro n
  induction n with
  | zero => intro rel; simp [relTimesLoop]
  | succ m ih =>
    intro rel
    rw [relTimesLoop, ih]
    simp
    omega

lemma relTimesLoop_get?_lt (ds : List Int) :
    ∀ (n : Nat) (rel : List Int) (k : Nat), k < rel.length →
      (relTimesLoop ds rel n).get? k = rel.get? k := by
  intro n
  induction n with
  | zero => intro rel k _; rfl
  | succ m ih =>
    intro rel k hk
    rw [relTimesLoop, ih]
    · exact List.get?_append hk
    · simp
      omega

lemma relTimesLoop_rec (ds : List Int) :
    ∀ (n : Nat) (rel : List Int), rel ≠ [] → ∀ (j : Nat), rel.length ≤ j → j < rel.length + n →
      (relTimesLoop ds rel n).getD j 0
        = ds.getD j 0 + (relTimesLoop ds rel n).getD (j - 1) 0 := by
  intro n
  induction n with
  | zero => intro rel _ j h1 h2; omega
  | succ m ih =>
    intro rel hne j h1 h2
    have hrl : 0 < rel.length := List.length_pos.mpr hne
    rcases Nat.eq_or_lt_of_le h1 with heq | hlt
    · subst heq
      rw [relTimesLoop]
      generalize hx : ds.getD rel.length 0 + rel.getD (rel.length - 1) 0 = x
      have hj : (relTimesLoop ds (rel ++ [x]) m).get? rel.length = some x := by
        rw [relTimesLoop_get?_lt ds m _ rel.length (by simp)]
        exact List.get?_concat_length rel x
      have hj1 : (relTimesLoop ds (rel ++ [x]) m).get? (rel.length - 1)
          = rel.get? (rel.length - 1) := by
        rw [relTimesLoop_get?_lt ds m _ (rel.length - 1) (by simp; omega)]
        exact List.get?_append (by omega)
      simp only [List.getD_eq_getD_get?, hj, hj1, Option.getD_some]
      rw [← List.getD_eq_getD_get?, ← List.getD_eq_getD_get?]
      exact hx.symm
    · rw [relTimesLoop]
      apply ih
      · simp
      · simp
        omega
      · simp
        omega

/-! ### Helper lemmas: `startPrep` (deadline planner output) -/

lemma startPrep_delay_list (t0 : Int) (s : AutoState) :
    (startPrep t0 s).delay_list = s.delay_list := rfl

lemma startPrep_lambda_list (t0 : Int) (s : AutoState) :
    (startPrep t0 s).lambda_list = s.lambda_list := rfl

lemma startPrep_automation_index (t0 : Int) (s : AutoState) :
    (startPrep t0 s).automation_index = s.automation_index := rfl

lemma startPrep_pause (t0 : Int) (s : AutoState) :
    (startPrep t0 s).pause_tasks = false := rfl

lemma startPrep_sstt (t0 : Int) (s : AutoState) :
    (startPrep t0 s).seconds_to_next_task = s.seconds_to_next_task := rfl

lemma startPrep_abs_length (t0 : Int) (s : AutoState)
    (h : s.automation_index < s.delay_list.length) :
    (startPrep t0 s).absolute_time_list.length = s.delay_list.length := by
  show ((relTimesLoop s.delay_list _ _).map _).length = _
  rw [List.length_map, relTimesLoop_length]
  simp
  omega

lemma startPrep_abs_get?_before (t0 : Int) (s : AutoState) (i : Nat)
    (hi : i < s.automation_index) :
    (startPrep t0 s).absolute_time_list.get? i = some t0 := by
  show ((relTimesLoop s.delay_list _ _).map _).get? i = _
  rw [List.get?_map, relTimesLoop_get?_lt]
  · rw [List.get?_append (by simp; omega)]
    have : (List.replicate s.automation_index (0 : Int)).get? i = some 0 := by
      rw [List.get?_eq_getElem?, List.getElem?_replicate, if_pos hi]
    rw [this]
    simp
  · simp
    omega

lemma startPrep_abs_get?_cursor (t0 : Int) (s : AutoState) :
    (startPrep t0 s).absolute_time_list.get? s.automation_index
      = some (s.seconds_to_next_task + t0) := by
  show ((relTimesLoop s.delay_list _ _).map _).get? s.automation_index = _
  rw [List.get?_map, relTimesLoop_get?_lt]
  · have : ((List.replicate s.automation_index (0 : Int)) ++ [s.seconds_to_next_task]).get? s.automation_index
        = some s.seconds_to_next_task := by
      have hl := List.get?_concat_length (List.replicate s.automation_index (0 : Int)) s.seconds_to_next_task
      rwa [List.length_replicate] at hl
    rw [this]
    rfl
  · simp

lemma startPrep_abs_rec (t0 : Int) (s : AutoState) (i : Nat)
    (h : s.automation_index < s.delay_list.length)
    (hi1 : s.automation_index < i) (hi2 : i < s.delay_list.length) :
    (startPrep t0 s).absolute_time_list.getD i 0
      = (startPrep t0 s).absolute_time_list.getD (i - 1) 0 + s.delay_list.getD i 0 := by
  have hlen0 : ((List.replicate s.automation_index (0 : Int)) ++ [s.seconds_to_next_task]).length
      = s.automation_index + 1 := by simp
  set L := relTimesLoop s.delay_list
      ((List.replicate s.automation_index (0 : Int)) ++ [s.seconds_to_next_task])
      (s.delay_list.length - (s.automation_index + 1)) with hL
  have hrec := relTimesLoop_rec s.delay_list
    (s.delay_list.length - (s.automation_index + 1))
    ((List.replicate s.automation_index (0 : Int)) ++ [s.seconds_to_next_task])
    (by simp) i (by omega) (by omega)
  rw [← hL] at hrec
  have hlenL : L.length = s.delay_list.length := by
    rw [hL, relTimesLoop_length, hlen0]
    omega
  obtain ⟨v, hv⟩ := get?_some_of_lt L i (by omega)
  obtain ⟨w, hw⟩ := get?_some_of_lt L (i - 1) (by omega)
  have hgv : (L.map (fun t => t + t0)).get? i = some (v + t0) := by
    rw [List.get?_map, hv]
    rfl
  have hgw : (L.map (fun t => t + t0)).get? (i - 1) = some (w + t0) := by
    rw [List.get?_map, hw]
    rfl
  show (L.map (fun t => t + t0)).getD i 0
      = (L.map (fun t => t + t0)).getD (i - 1) 0 + s.delay_list.getD i 0
  simp only [List.getD_eq_getD_get?, hgv, hgw, Option.getD_some]
  simp only [List.getD_eq_getD_get?, hv, hw, Option.getD_some] at hrec
  omega

lemma startPrep_end_time (t0 : Int) (s : AutoState) :
    (startPrep t0 s).end_time
      = (startPrep t0 s).absolute_time_list.getD
          ((startPrep t0 s).absolute_time_list.length - 1) 0 := rfl

/-! ### Helper lemmas: `tickTail` and `finishReset` projections -/

lemma tickTail_state_eq (s : AutoState) (now : Int) (evs : List Event) :
    (tickTail s now evs).state.automation_index = s.automation_index
    ∧ (tickTail s now evs).state.pause_tasks = s.pause_tasks
    ∧ (tickTail s now evs).state.delay_list = s.delay_list
    ∧ (tickTail s now evs).state.absolute_time_list = s.absolute_time_list
    ∧ (tickTail s now evs).state.lambda_list = s.lambda_list
    ∧ (tickTail s now evs).state.end_time = s.end_time
    ∧ (tickTail s now evs).state.seconds_to_next_task = s.seconds_to_next_task
    ∧ (tickTail s now evs).events = evs := by
  unfold tickTail
  split <;> exact ⟨rfl, rfl, rfl, rfl, rfl, rfl, rfl, rfl⟩

lemma tickTail_next (s : AutoState) (now : Int) (evs : List Event) :
    (tickTail s now evs).next
      = (if s.seconds_to_next_task ≤ 0 then some 0 else some 1000) := by
  unfold tickTail
  split <;> simp_all

lemma finishReset_eq (s : AutoState) :
    (finishReset s).automation_index = 0
    ∧ (finishReset s).pause_tasks = true
    ∧ (finishReset s).delay_list = s.delay_list
    ∧ (finishReset s).absolute_time_list = s.absolute_time_list
    ∧ (finishReset s).lambda_list = s.lambda_list
    ∧ (finishReset s).end_time = s.end_time
    ∧ (finishReset s).seconds_to_next_task
        = (if s.delay_list.length = 0 then 0 else s.delay_list.headD 0)
    ∧ (finishReset s).time_to_go = s.delay_list.sum
    ∧ (finishReset s).lines_loaded = linesDone 0 s.delay_list.length
    ∧ (finishReset s).automation_running_label = ("(finished!)") :=
  ⟨rfl, rfl, rfl, rfl, rfl, rfl, rfl, rfl, rfl, rfl⟩

/-! ### Helper lemmas: the four branches of `update_tasks` -/

lemma update_tasks_paused (s : AutoState) (now : Int) (hp : s.pause_tasks = true) :
    update_tasks s now = Except.ok ⟨s, [], none⟩ := by
  simp [update_tasks, hp]

lemma update_tasks_notdue (s : AutoState) (now dl : Int)
    (hp : s.pause_tasks = false)
    (ha : s.absolute_time_list.get? s.automation_index = some dl)
    (hn : ¬ now > dl) :
    update_tasks s now
      = Except.ok (tickTail { s with seconds_to_next_task := dl - now } now []) := by
  have ha2 : s.absolute_time_list[s.automation_index]? = some dl := by
    rw [← List.get?_eq_getElem?]
    exact ha
  have hn2 : ¬ dl < now := hn
  simp [update_tasks, hp, ha2, hn2]

lemma update_tasks_due_mid (s : AutoState) (now dl : Int) (a : AutoAction)
    (hp : s.pause_tasks = false)
    (ha : s.absolute_time_list.get? s.automation_index = some dl)
    (hn : now > dl)
    (hl : s.lambda_list.get? s.automation_index = some a)
    (hlt : s.automation_index + 1 < s.delay_list.length) :
    update_tasks s now
      = Except.ok (tickTail
          { s with automation_index := s.automation_index + 1
                   lines_loaded := linesDone (s.automation_index + 1) s.delay_list.length
                   seconds_to_next_task := s.delay_list.getD (s.automation_index + 1) 0 }
          now (execEvents a s.automation_index)) := by
  have ha2 : s.absolute_time_list[s.automation_index]? = some dl := by
    rw [← List.get?_eq_getElem?]
    exact ha
  have hl2 : s.lambda_list[s.automation_index]? = some a := by
    rw [← List.get?_eq_getElem?]
    exact hl
  have hn2 : dl < now := hn
  have hge2 : ¬ s.delay_list.length ≤ s.automation_index + 1 := by omega
  simp [update_tasks, hp, ha2, hn2, hl2, hge2]

lemma update_tasks_due_last (s : AutoState) (now dl : Int) (a : AutoAction)
    (hp : s.pause_tasks = false)
    (ha : s.absolute_time_list.get? s.automation_index = some dl)
    (hn : now > dl)
    (hl : s.lambda_list.get? s.automation_index = some a)
    (hge : s.delay_list.length ≤ s.automation_index + 1) :
    update_tasks s now
      = Except.ok ⟨finishReset
          { s with automation_index := s.automation_index + 1
                   lines_loaded := linesDone (s.automation_index + 1) s.delay_list.length },
          execEvents a s.automation_index, none⟩ := by
  have ha2 : s.absolute_time_list[s.automation_index]? = some dl := by
    rw [← List.get?_eq_getElem?]
    exact ha
  have hl2 : s.lambda_list[s.automation_index]? = some a := by
    rw [← List.get?_eq_getElem?]
    exact hl
  have hn2 : dl < now := hn
  simp [update_tasks, hp, ha2, hn2, hl2, hge]

lemma update_tasks_isOk (s : AutoState) (now : Int)
    (h1 : s.automation_index < s.absolute_time_list.length)
    (h2 : s.automation_index < s.lambda_list.length) :
    ∃ r, update_tasks s now = Except.ok r := by
  by_cases hp : s.pause_tasks = true
  · exact ⟨_, update_tasks_paused s now hp⟩
  · have hp2 : s.pause_tasks = false := by
      cases hb : s.pause_tasks
      · rfl
      · exact absurd hb hp
    obtain ⟨dl, hdl⟩ := get?_some_of_lt s.absolute_time_list s.automation_index h1
    by_cases hn : now > dl
    · obtain ⟨a, ha⟩ := get?_some_of_lt s.lambda_list s.automation_index h2
      by_cases hge : s.delay_list.length ≤ s.automation_index + 1
      · exact ⟨_, update_tasks_due_last s now dl a hp2 hdl hn ha hge⟩
      · exact ⟨_, update_tasks_due_mid s now dl a hp2 hdl hn ha (by omega)⟩
    · exact ⟨_, update_tasks_notdue s now dl hp2 hdl hn⟩

lemma update_tasks_preserves (s : AutoState) (now : Int) (r : TickResult)
    (h : update_tasks s now = Except.ok r) :
    r.state.delay_list = s.delay_list
    ∧ r.state.absolute_time_list = s.absolute_time_list
    ∧ r.state.lambda_list = s.lambda_list
    ∧ r.state.end_time = s.end_time := by
  by_cases hp : s.pause_tasks = true
  · rw [update_tasks_paused s now hp] at h
    injection h with h
    rw [← h]
    exact ⟨rfl, rfl, rfl, rfl⟩
  · have hp2 : s.pause_tasks = false := by
      cases hb : s.pause_tasks
      · rfl
      · exact absurd hb hp
    cases hdl : s.absolute_time_list.get? s.automation_index with
    | none =>
      have hdl2 : s.absolute_time_list[s.automation_index]? = none := by
        rw [← List.get?_eq_getElem?]
        exact hdl
      simp [update_tasks, hp2, hdl2] at h
    | some dl =>
      by_cases hn : now > dl
      · cases ha : s.lambda_list.get? s.automation_index with
        | none =>
          have hdl2 : s.absolute_time_list[s.automation_index]? = some dl := by
            rw [← List.get?_eq_getElem?]
            exact hdl
          have ha2 : s.lambda_list[s.automation_index]? = none := by
            rw [← List.get?_eq_getElem?]
            exact ha
          have hn2 : dl < now := hn
          simp [update_tasks, hp2, hdl2, hn2, ha2] at h
        | some a =>
          by_cases hge : s.delay_list.length ≤ s.automation_index + 1
          · rw [update_tasks_due_last s now dl a hp2 hdl hn ha hge] at h
            injection h with h
            rw [← h]
            obtain ⟨_, _, e1, e2, e3, e4, _⟩ := finishReset_eq
              { s with automation_index := s.automation_index + 1
                       lines_loaded := linesDone (s.automation_index + 1) s.delay_list.length }
            exact ⟨e1, e2, e3, e4⟩
          · rw [update_tasks_due_mid s now dl a hp2 hdl hn ha (by omega)] at h
            injection h with h
            rw [← h]
            obtain ⟨_, _, e1, e2, e3, e4, _, _⟩ := tickTail_state_eq
              { s with automation_index := s.automation_index + 1
                       lines_loaded := linesDone (s.automation_index + 1) s.delay_list.length
                       seconds_to_next_task := s.delay_list.getD (s.automation_index + 1) 0 }
              now (execEvents a s.automation_index)
            exact ⟨e1, e2, e3, e4⟩
      · rw [update_tasks_notdue s now dl hp2 hdl hn] at h
        injection h with h
        rw [← h]
        obtain ⟨_, _, e1, e2, e3, e4, _, _⟩ := tickTail_state_eq
          { s with seconds_to_next_task := dl - now } now []
        exact ⟨e1, e2, e3, e4⟩

/-! ### Helper lemma: a run whose deadlines have all passed ticks to the
finished reset -/

lemma runTicks_finish :
    ∀ (k : Nat) (s : AutoState) (now : Int),
      s.pause_tasks = false →
      s.absolute_time_list.length = s.delay_list.length →
      s.lambda_list.length = s.delay_list.length →
      s.automation_index + (k + 1) = s.delay_list.length →
      (∀ d ∈ s.absolute_time_list, now > d) →
      ∃ r, runTicks now k s = Except.ok r ∧ r.next = none
        ∧ r.state.delay_list = s.delay_list
        ∧ r.state.automation_index = 0
        ∧ r.state.pause_tasks = true
        ∧ r.state.seconds_to_next_task
            = (if s.delay_list.length = 0 then 0 else s.delay_list.headD 0)
        ∧ r.state.time_to_go = s.delay_list.sum
        ∧ r.state.lines_loaded = linesDone 0 s.delay_list.length
        ∧ r.state.automation_running_label = ("(finished!)") := by
  intro k
  induction k with
  | zero =>
    intro s now hp hal hll hcnt hdue
    obtain ⟨dl, hdl⟩ := get?_some_of_lt s.absolute_time_list s.automation_index (by omega)
    have hn : now > dl := hdue dl (List.get?_mem hdl)
    obtain ⟨a, ha⟩ := get?_some_of_lt s.lambda_list s.automation_index (by omega)
    have hstep := update_tasks_due_last s now dl a hp hdl hn ha (by omega)
    refine ⟨_, hstep, rfl, ?_⟩
    obtain ⟨f0, f1, f2, _, _, _, f6, f7, f8, f9⟩ := finishReset_eq
      { s with automation_index := s.automation_index + 1
               lines_loaded := linesDone (s.automation_index + 1) s.delay_list.length }
    exact ⟨f2, f0, f1, f6, f7, f8, f9⟩
  | succ m ih =>
    intro s now hp hal hll hcnt hdue
    obtain ⟨dl, hdl⟩ := get?_some_of_lt s.absolute_time_list s.automation_index (by omega)
    have hn : now > dl := hdue dl (List.get?_mem hdl)
    obtain ⟨a, ha⟩ := get?_some_of_lt s.lambda_list s.automation_index (by omega)
    have hstep := update_tasks_due_mid s now dl a hp hdl hn ha (by omega)
    obtain ⟨t0', t1', t2', t3', t4', _, _, _⟩ := tickTail_state_eq
      { s with automation_index := s.automation_index + 1
               lines_loaded := linesDone (s.automation_index + 1) s.delay_list.length
               seconds_to_next_task := s.delay_list.getD (s.automation_index + 1) 0 }
      now (execEvents a s.automation_index)
    set r1 := tickTail
      { s with automation_index := s.automation_index + 1
               lines_loaded := linesDone (s.automation_index + 1) s.delay_list.length
               seconds_to_next_task := s.delay_list.getD (s.automation_index + 1) 0 }
      now (execEvents a s.automation_index) with hr1
    obtain ⟨r, hrun, hnext, hdlist, hidx, hpause, hsstt, httg, hlines, hlabel⟩ :=
      ih r1.state now (by rw [t1']; exact hp)
        (by rw [t2', t3']; exact hal)
        (by rw [t4', t2']; exact hll)
        (by rw [t0', t2']
            show s.automation_index + 1 + (m + 1) = s.delay_list.length
            omega)
        (by rw [t3']; exact hdue)
    refine ⟨r, ?_, hnext, ?_, hidx, hpause, ?_, ?_, ?_, hlabel⟩
    · show (update_tasks s now).bind (fun r2 => runTicks now m r2.state) = Except.ok r
      rw [hstep]
      exact hrun
    · rw [hdlist, t2']
    · rw [hsstt, t2']
    · rw [httg, t2']
    · rw [hlines, t2']

/-! ### Helper lemmas: the queue builder -/

lemma schedule_delay_proj (d : String) (s : AutoState) :
    (schedule_delay d s).1.delay_list = s.delay_list
    ∧ (schedule_delay d s).1.lambda_list = s.lambda_list
    ∧ (schedule_delay d s).1.automation_index = s.automation_index
    ∧ (schedule_delay d s).1.pause_tasks = s.pause_tasks
    ∧ (schedule_delay d s).1.seconds_to_next_task = s.seconds_to_next_task := by
  unfold schedule_delay
  cases parseDelaySecs? d <;> exact ⟨rfl, rfl, rfl, rfl, rfl⟩

lemma schedule_delay_ok (d : String) (s : AutoState) (v : Int)
    (h : parseDelaySecs? d = some v) :
    schedule_delay d s = ({ s with delay_for_loading := s.delay_for_loading + v }, none) := by
  unfold schedule_delay
  rw [h]

lemma schedule_function_proj (f : AutoAction) (s : AutoState) :
    (schedule_function f s).delay_list = s.delay_list ++ [s.delay_for_loading]
    ∧ (schedule_function f s).lambda_list = s.lambda_list ++ [f]
    ∧ (schedule_function f s).delay_for_loading = 0
    ∧ (schedule_function f s).time_to_go = (s.delay_list ++ [s.delay_for_loading]).sum
    ∧ (schedule_function f s).automation_index = s.automation_index
    ∧ (schedule_function f s).pause_tasks = s.pause_tasks := by
  unfold schedule_function
  split <;> exact ⟨rfl, rfl, rfl, rfl, rfl, rfl⟩

lemma applyDelays_spec (ds : List String) :
    ∀ (vs : List Int) (s : AutoState), ds.map parseDelaySecs? = vs.map some →
      (applyDelays ds s).2 = none
      ∧ (applyDelays ds s).1.delay_for_loading = s.delay_for_loading + vs.sum
      ∧ (applyDelays ds s).1.delay_list = s.delay_list
      ∧ (applyDelays ds s).1.lambda_list = s.lambda_list
      ∧ (applyDelays ds s).1.seconds_to_next_task = s.seconds_to_next_task := by
  induction ds with
  | nil =>
    intro vs s h
    have h2 : vs.map some = ([] : List (Option Int)) := h.symm
    have hvs : vs = [] := List.map_eq_nil.mp h2
    subst hvs
    simp [applyDelays]
  | cons d ds ih =>
    intro vs s h
    cases vs with
    | nil => simp at h
    | cons v vs =>
      simp only [List.map] at h
      have hd : parseDelaySecs? d = some v := ((List.cons.injEq _ _ _ _).mp h).1
      have ht : ds.map parseDelaySecs? = vs.map some := ((List.cons.injEq _ _ _ _).mp h).2
      obtain ⟨h0, h1, h2, h3, h4⟩ := ih vs { s with delay_for_loading := s.delay_for_loading + v } ht
      have hun : applyDelays (d :: ds) s
          = applyDelays ds { s with delay_for_loading := s.delay_for_loading + v } := by
        show (match schedule_delay d s with
          | (s1, none) => applyDelays ds s1
          | (s1, some e) => (s1, some e)) = _
        rw [schedule_delay_ok d s v hd]
      rw [hun]
      refine ⟨h0, ?_, h2, h3, h4⟩
      rw [h1, List.sum_cons]
      ring

/-! ### Helper lemmas: script interpretation and loading -/

lemma schedule_action_cases (dash : List (String × List String))
    (nick field value : String) (confirm : Bool) (s : AutoState) :
    (schedule_action dash nick field value confirm s)
        = (schedule_function (AutoAction.setField nick field value confirm) s, none)
    ∨ (schedule_action dash nick field value confirm s).1 = s := by
  unfold schedule_action
  split
  · exact Or.inr rfl
  · split
    · exact Or.inl rfl
    · exact Or.inr rfl

lemma runStmt_inv (dash : List (String × List String)) (stmt : ScriptStmt) (s : AutoState) :
    (runStmt dash stmt s).1.automation_index = s.automation_index
    ∧ (runStmt dash stmt s).1.pause_tasks = s.pause_tasks
    ∧ (s.delay_list.length = s.lambda_list.length →
        (runStmt dash stmt s).1.delay_list.length = (runStmt dash stmt s).1.lambda_list.length) := by
  cases stmt with
  | delay d =>
    show (schedule_delay d s).1.automation_index = s.automation_index
      ∧ (schedule_delay d s).1.pause_tasks = s.pause_tasks
      ∧ (s.delay_list.length = s.lambda_list.length →
          (schedule_delay d s).1.delay_list.length = (schedule_delay d s).1.lambda_list.length)
    obtain ⟨e1, e2, e3, e4, _⟩ := schedule_delay_proj d s
    refine ⟨e3, e4, fun h => ?_⟩
    rw [e1, e2]
    exact h
  | func f =>
    show (schedule_function f s).automation_index = s.automation_index
      ∧ (schedule_function f s).pause_tasks = s.pause_tasks
      ∧ (s.delay_list.length = s.lambda_list.length →
          (schedule_function f s).delay_list.length = (schedule_function f s).lambda_list.length)
    obtain ⟨e1, e2, _, _, e5, e6⟩ := schedule_function_proj f s
    refine ⟨e5, e6, fun h => ?_⟩
    rw [e1, e2]
    simp [h]
  | action n f v c =>
    show (schedule_action dash n f v c s).1.automation_index = s.automation_index
      ∧ (schedule_action dash n f v c s).1.pause_tasks = s.pause_tasks
      ∧ (s.delay_list.length = s.lambda_list.length →
          (schedule_action dash n f v c s).1.delay_list.length
            = (schedule_action dash n f v c s).1.lambda_list.length)
    rcases schedule_action_cases dash n f v c s with hc | hc
    · obtain ⟨e1, e2, _, _, e5, e6⟩ :=
        schedule_function_proj (AutoAction.setField n f v c) s
      rw [hc]
      refine ⟨e5, e6, fun h => ?_⟩
      show (schedule_function (AutoAction.setField n f v c) s).delay_list.length = _
      rw [e1, e2]
      simp [h]
    · rw [hc]
      exact ⟨rfl, rfl, fun h => h⟩

lemma runScript_inv (dash : List (String × List String)) :
    ∀ (stmts : List ScriptStmt) (s : AutoState),
      (runScript dash stmts s).1.automation_index = s.automation_index
      ∧ (runScript dash stmts s).1.pause_tasks = s.pause_tasks
      ∧ (s.delay_list.length = s.lambda_list.length →
          (runScript dash stmts s).1.delay_list.length
            = (runScript dash stmts s).1.lambda_list.length) := by
  intro stmts
  induction stmts with
  | nil => intro s; exact ⟨rfl, rfl, fun h => h⟩
  | cons stmt rest ih =>
    intro s
    obtain ⟨e1, e2, e3⟩ := runStmt_inv dash stmt s
    cases hr : runStmt dash stmt s with
    | mk s1 err =>
      rw [hr] at e1 e2 e3
      simp only at e1 e2 e3
      cases err with
      | none =>
        have hun : runScript dash (stmt :: rest) s = runScript dash rest s1 := by
          show (match runStmt dash stmt s with
            | (s1, none) => runScript dash rest s1
            | (s1, some e) => (s1, some e)) = _
          rw [hr]
        rw [hun]
        obtain ⟨g1, g2, g3⟩ := ih s1
        exact ⟨g1.trans e1, g2.trans e2, fun h => g3 (e3 h)⟩
      | some e =>
        have hun : runScript dash (stmt :: rest) s = (s1, some e) := by
          show (match runStmt dash stmt s with
            | (s1, none) => runScript dash rest s1
            | (s1, some e) => (s1, some e)) = _
          rw [hr]
        rw [hun]
        exact ⟨e1, e2, e3⟩

lemma load_success (dash : List (String × List String)) (script : List ScriptStmt)
    (filename : String) (s s1 : AutoState)
    (hr : runScript dash script (resetForLoad s) = (s1, none)) :
    (load_automation_file dash script filename s).2 = none
    ∧ (load_automation_file dash script filename s).1.automation_index = s1.automation_index
    ∧ (load_automation_file dash script filename s).1.pause_tasks = s1.pause_tasks
    ∧ (load_automation_file dash script filename s).1.delay_list = s1.delay_list
    ∧ (load_automation_file dash script filename s).1.lambda_list = s1.lambda_list
    ∧ (load_automation_file dash script filename s).1.seconds_to_next_task
        = (if s1.delay_list.length = 0 then 0 else s1.delay_list.headD 0) := by
  simp only [load_automation_file, hr]
  simp

lemma load_cases (dash : List (String × List String)) (script : List ScriptStmt)
    (filename : String) (s : AutoState)
    (hok : (load_automation_file dash script filename s).2 = none) :
    ∃ s1, runScript dash script (resetForLoad s) = (s1, none) := by
  cases hr : runScript dash script (resetForLoad s) with
  | mk s1 err =>
    cases err with
    | none => exact ⟨s1, rfl⟩
    | some e =>
      exfalso
      simp only [load_automation_file, hr] at hok
      exact Option.noConfusion hok

lemma load_inv (dash : List (String × List String)) (script : List ScriptStmt)
    (filename : String) (s : AutoState)
    (hok : (load_automation_file dash script filename s).2 = none) :
    (load_automation_file dash script filename s).1.automation_index = 0
    ∧ (load_automation_file dash script filename s).1.pause_tasks = true
    ∧ (load_automation_file dash script filename s).1.lambda_list.length
        = (load_automation_file dash script filename s).1.delay_list.length
    ∧ (load_automation_file dash script filename s).1.seconds_to_next_task
        = (if (load_automation_file dash script filename s).1.delay_list.length = 0 then 0
           else (load_automation_file dash script filename s).1.delay_list.headD 0) := by
  obtain ⟨s1, hr⟩ := load_cases dash script filename s hok
  obtain ⟨e1, e2, e3⟩ := runScript_inv dash script (resetForLoad s)
  rw [hr] at e1 e2 e3
  simp only at e1 e2 e3
  obtain ⟨_, g1, g2, g3, g4, g5⟩ := load_success dash script filename s s1 hr
  refine ⟨?_, ?_, ?_, ?_⟩
  · rw [g1, e1]
    rfl
  · rw [g2, e2]
    rfl
  · rw [g3, g4]
    exact (e3 (by rfl)).symm
  · rw [g5, g3]

/-! ### Helper lemmas: starting a run -/

lemma start_eq (s : AutoState) (t0 : Int) (h : s.delay_list.length ≠ 0) :
    start_automated_tasks true t0 s = update_tasks (startPrep t0 s) t0 := by
  unfold start_automated_tasks
  rw [if_neg h, if_neg (by simp)]

lemma start_ok (s : AutoState) (t0 : Int)
    (h2 : s.automation_index < s.delay_list.length)
    (h3 : s.lambda_list.length = s.delay_list.length) :
    ∃ r, start_automated_tasks true t0 s = Except.ok r
      ∧ r.state.absolute_time_list = (startPrep t0 s).absolute_time_list
      ∧ r.state.end_time = (startPrep t0 s).end_time := by
  rw [start_eq s t0 (by omega)]
  obtain ⟨r, hr⟩ := update_tasks_isOk (startPrep t0 s) t0
    (by rw [startPrep_automation_index, startPrep_abs_length t0 s h2]; exact h2)
    (by rw [startPrep_automation_index, startPrep_lambda_list]; omega)
  obtain ⟨_, p2, _, p4⟩ := update_tasks_preserves (startPrep t0 s) t0 r hr
  exact ⟨r, hr, p2, p4⟩

/-! ### Helper lemmas: delay-string parsing -/

lemma parseDelaySecs?_arity (d : String) (hne : (pySplit d ':').length ≠ 3) :
    parseDelaySecs? d = none := by
  unfold parseDelaySecs?
  cases hsp : pySplit d ':' with
  | nil => rfl
  | cons a t =>
    cases t with
    | nil => rfl
    | cons b t2 =>
      cases t2 with
      | nil => rfl
      | cons c t3 =>
        cases t3 with
        | nil => exact absurd (by rw [hsp]; rfl) hne
        | cons e t4 => rfl

lemma parseDelaySecs?_of_components (d : String) (h m sec : String) (hv mv sv : Int)
    (hsp : pySplit d ':' = [h, m, sec])
    (hh : pyInt? h = some hv) (hm2 : pyInt? m = some mv) (hss : pyInt? sec = some sv) :
    parseDelaySecs? d = some (3600 * hv + 60 * mv + sv) := by
  unfold parseDelaySecs?
  rw [hsp]
  show (match pyInt? h, pyInt? m, pyInt? sec with
    | some hv, some mv, some sv => some (3600 * hv + 60 * mv + sv)
    | _, _, _ => none) = some (3600 * hv + 60 * mv + sv)
  rw [hh, hm2, hss]

/-! ## Claim theorems -/

/-- C1: the spec states that a script whose interpretation raises during
load leaves the step queue empty ("load aborts, queue left empty"), and
the comment above the reset block in `_load_automation_file` ("just to
cover our bases if there's an error") shows that is the code's intent;
but because the reset runs before `exec` rather than in the handler, a
step appended before the error survives.  The failing script
`schedule_function(f); schedule_delay("oops")` leaves one queued step
after the failed load. -/
theorem C1_failed_load_keeps_earlier_steps :
    ((load_automation_file []
        [ScriptStmt.func (AutoAction.userOk 0), ScriptStmt.delay ("oops")]
        ("f") initState).2).isSome = true
    ∧ (load_automation_file []
        [ScriptStmt.func (AutoAction.userOk 0), ScriptStmt.delay ("oops")]
        ("f") initState).1.delay_list.length = 1 := by
  decide

/-- C2 counterexample: a tick at time 10 on a two-step queue with
deadlines `[0, 5]` executes step 0; the new current step's deadline (5)
has already passed (5 < 10), yet the code sets `seconds_to_next_task`
to the raw relative delay 5 (not `deadline - now = -5`) and schedules
the next tick after a full polling interval (1000 ms) instead of with
zero delay — refuting the claim that the countdown is set from the
absolute deadline and that an already-due deadline forces a zero-delay
tick. -/
theorem C2_tick_deadline_counterexample :
    c2State.absolute_time_list.get? c2State.automation_index = some 0
    ∧ (10 : Int) > 0
    ∧ c2State.absolute_time_list.getD 1 0 = 5
    ∧ (5 : Int) < 10
    ∧ tickField (fun r => r.state.seconds_to_next_task) (update_tasks c2State 10) = some 5
    ∧ ¬ tickField (fun r => r.state.seconds_to_next_task) (update_tasks c2State 10)
        = some (5 - 10)
    ∧ tickField TickResult.next (update_tasks c2State 10) = some (some 1000)
    ∧ ¬ tickField TickResult.next (update_tasks c2State 10) = some (some 0) := by
  decide

/-- C2 (amended): for every tick that executes a due step which is not
the last step, the tick sets `seconds_to_next_task` to the new current
step's raw relative delay (`delay_list[index]`), and schedules the next
tick with zero delay exactly when that raw delay is non-positive (in
particular when it is 0, so zero-delay steps fire in the same tick
cascade), and otherwise after one polling interval — even if the new
step's absolute deadline has already passed. -/
theorem C2_tick_reload (s : AutoState) (now dl : Int) (a : AutoAction)
    (hp : s.pause_tasks = false)
    (ha : s.absolute_time_list.get? s.automation_index = some dl)
    (hn : now > dl)
    (hl : s.lambda_list.get? s.automation_index = some a)
    (hlt : s.automation_index + 1 < s.delay_list.length) :
    tickField (fun r => r.state.seconds_to_next_task) (update_tasks s now)
      = some (s.delay_list.getD (s.automation_index + 1) 0)
    ∧ tickField TickResult.next (update_tasks s now)
      = some (if s.delay_list.getD (s.automation_index + 1) 0 ≤ 0
              then some 0 else some 1000) := by
  rw [update_tasks_due_mid s now dl a hp ha hn hl hlt]
  constructor
  · show some ((tickTail
      { s with automation_index := s.automation_index + 1
               lines_loaded := linesDone (s.automation_index + 1) s.delay_list.length
               seconds_to_next_task := s.delay_list.getD (s.automation_index + 1) 0 }
      now (execEvents a s.automation_index)).state.seconds_to_next_task) = _
    rw [(tickTail_state_eq _ now _).2.2.2.2.2.2.1]
  · show some ((tickTail
      { s with automation_index := s.automation_index + 1
               lines_loaded := linesDone (s.automation_index + 1) s.delay_list.length
               seconds_to_next_task := s.delay_list.getD (s.automation_index + 1) 0 }
      now (execEvents a s.automation_index)).next) = _
    rw [tickTail_next]

/-- C2 witness: the amended tick behaviour at a concrete state. -/
theorem C2_tick_reload_witness :
    tickField (fun r => r.state.seconds_to_next_task) (update_tasks c2State 1)
      = some (c2State.delay_list.getD (c2State.automation_index + 1) 0)
    ∧ tickField TickResult.next (update_tasks c2State 1)
      = some (if c2State.delay_list.getD (c2State.automation_index + 1) 0 ≤ 0
              then some 0 else some 1000) :=
  C2_tick_reload c2State 1 0 (AutoAction.userOk 0)
    (by decide) (by decide) (by decide) (by decide) (by decide)

/-- C8: `schedule_action` with a field name that is not among the target
widget's recognized attribute keys raises synchronously (while the
script is being interpreted at load time, not at execution time) and
leaves the whole state — in particular the step queue's length —
unchanged. -/
theorem C8_unknown_field (dash : List (String × List String))
    (nick field v : String) (c : Bool) (s : AutoState) (attrs : List String)
    (h1 : lookupWidget dash nick = some attrs) (h2 : ¬ field ∈ attrs) :
    (schedule_action dash nick field v c s).1 = s
    ∧ ((schedule_action dash nick field v c s).2).isSome = true
    ∧ (schedule_action dash nick field v c s).1.delay_list.length
        = s.delay_list.length := by
  have hc : schedule_action dash nick field v c s
      = (s, some ("Exception: cannot find the specified field to automate.")) := by
    simp only [schedule_action, h1]
    rw [if_neg h2]
  rw [hc]
  exact ⟨rfl, rfl, rfl⟩

/-- C8 witness: the unknown-field failure at a concrete dashboard. -/
theorem C8_unknown_field_witness :
    (schedule_action [(("valve"), [("status")])] ("valve") ("bogus") ("1") true initState).1
      = initState
    ∧ ((schedule_action [(("valve"), [("status")])] ("valve") ("bogus") ("1") true initState).2).isSome
      = true
    ∧ (schedule_action [(("valve"), [("status")])] ("valve") ("bogus") ("1") true initState).1.delay_list.length
      = initState.delay_list.length :=
  C8_unknown_field [(("valve"), [("status")])] ("valve") ("bogus") ("1") true initState
    [("status")] (by decide) (by decide)

/-- C9 counterexample: the claim says a delay string with a negative
component such as "0:-5:00" is rejected, but Python's `int` accepts a
signed integer, so `schedule_delay` succeeds and accumulates −300
seconds. -/
theorem C9_negative_accepted_counterexample :
    (schedule_delay ("0:-5:00") initState).2 = none
    ∧ (schedule_delay ("0:-5:00") initState).1.delay_for_loading = -300 := by
  decide

/-- C9 (amended): `schedule_delay` fails with an error when the duration
string does not split on ":" into exactly three components; whenever
each of the three components parses as an optionally-signed decimal
integer — Python's `int` also tolerating surrounding whitespace and
single underscores between digits, and a sign being permitted, so
negative components are accepted rather than rejected — the call
succeeds and adds `3600*h + 60*m + s` seconds (possibly negative) to
the accumulator; in particular "0:-5:00" is accepted and accumulates
−300 seconds. -/
theorem C9_parse_amended (d : String) (s : AutoState) :
    ((pySplit d ':').length ≠ 3 → ((schedule_delay d s).2).isSome = true)
    ∧ (∀ (h m sec : String) (hv mv sv : Int),
        pySplit d ':' = [h, m, sec] →
        pyInt? h = some hv → pyInt? m = some mv → pyInt? sec = some sv →
        (schedule_delay d s).2 = none
        ∧ (schedule_delay d s).1.delay_for_loading
            = s.delay_for_loading + (3600 * hv + 60 * mv + sv))
    ∧ (schedule_delay ("0:-5:00") s).1.delay_for_loading
        = s.delay_for_loading + (-300) := by
  refine ⟨?_, ?_, ?_⟩
  · intro hne
    unfold schedule_delay
    rw [parseDelaySecs?_arity d hne]
    rfl
  · intro h m sec hv mv sv hsp hh hm2 hss
    rw [schedule_delay_ok d s (3600 * hv + 60 * mv + sv)
      (parseDelaySecs?_of_components d h m sec hv mv sv hsp hh hm2 hss)]
    exact ⟨rfl, rfl⟩
  · rw [schedule_delay_ok ("0:-5:00") s (-300) (by decide)]

/-- C9 witness: a two-component string is rejected; a component with
surrounding whitespace (" 5", which Python's `int` accepts as 5) is
accepted and adds 300 seconds; the negative component of "0:-5:00"
accumulates −300 seconds. -/
theorem C9_parse_amended_witness :
    ((schedule_delay ("0:00") initState).2).isSome = true
    ∧ ((schedule_delay ("0: 5:0") initState).2 = none
        ∧ (schedule_delay ("0: 5:0") initState).1.delay_for_loading
            = initState.delay_for_loading + (3600 * 0 + 60 * 5 + 0))
    ∧ (schedule_delay ("0:-5:00") initState).1.delay_for_loading
        = initState.delay_for_loading + (-300) :=
  ⟨(C9_parse_amended ("0:00") initState).1 (by decide),
   (C9_parse_amended ("0: 5:0") initState).2.1 ("0") (" 5") ("0") 0 5 0
     (by decide) (by decide) (by decide) (by decide),
   (C9_parse_amended ("0:-5:00") initState).2.2⟩

/-- C10: `_stop_automated_tasks` reads `delay_list[0]` without a guard,
so stop is well-defined only for a non-empty queue: with steps queued it
resets the cursor to 0 and reloads `seconds_to_next_task` from step 0's
raw delay without error, while on an empty queue the read is out of
bounds and the call raises. -/
theorem C10_stop_bounds (s : AutoState) :
    (s.delay_list ≠ [] →
      (stop_automated_tasks s).2 = none
      ∧ (stop_automated_tasks s).1.automation_index = 0
      ∧ (stop_automated_tasks s).1.seconds_to_next_task = s.delay_list.headD 0
      ∧ (stop_automated_tasks s).1.time_to_go = s.delay_list.sum)
    ∧ (s.delay_list = [] → ((stop_automated_tasks s).2).isSome = true) := by
  constructor
  · intro hne
    cases hd : s.delay_list with
    | nil => exact absurd hd hne
    | cons a t =>
      have hh : (buttons_stopped_mode s).delay_list.head? = some a := by
        show s.delay_list.head? = some a
        rw [hd]
        rfl
      simp only [stop_automated_tasks, hh]
      refine ⟨trivial, trivial, rfl, ?_⟩
      show s.delay_list.sum = (a :: t).sum
      rw [hd]
  · intro hemp
    have hh : (buttons_stopped_mode s).delay_list.head? = none := by
      show s.delay_list.head? = none
      rw [hemp]
      rfl
    simp only [stop_automated_tasks, hh]
    rfl

/-- C10 witness: stop at a one-step queue and at the empty queue. -/
theorem C10_stop_bounds_witness :
    ((stop_automated_tasks { initState with delay_list := [4] }).2 = none
      ∧ (stop_automated_tasks { initState with delay_list := [4] }).1.automation_index = 0
      ∧ (stop_automated_tasks { initState with delay_list := [4] }).1.seconds_to_next_task
          = ({ initState with delay_list := [4] } : AutoState).delay_list.headD 0
      ∧ (stop_automated_tasks { initState with delay_list := [4] }).1.time_to_go
          = ({ initState with delay_list := [4] } : AutoState).delay_list.sum)
    ∧ ((stop_automated_tasks initState).2).isSome = true :=
  ⟨(C10_stop_bounds { initState with delay_list := [4] }).1 (by decide),
   (C10_stop_bounds initState).2 (by decide)⟩

/-- C6: any sequence of `schedule_delay` calls followed by one
`schedule_function` call appends a step whose relative delay equals the
sum of the parsed delay seconds (0 when there were none), resets the
pending accumulator to 0, and recomputes the total-seconds-remaining
readout value as the sum of all queued steps' delays. -/
theorem C6_delay_accumulation (ds : List String) (vs : List Int) (f : AutoAction)
    (s : AutoState)
    (h0 : s.delay_for_loading = 0)
    (hp : ds.map parseDelaySecs? = vs.map some) :
    (applyDelays ds s).2 = none
    ∧ (schedule_function f (applyDelays ds s).1).delay_list.getLast? = some vs.sum
    ∧ (schedule_function f (applyDelays ds s).1).delay_for_loading = 0
    ∧ (schedule_function f (applyDelays ds s).1).time_to_go
        = (schedule_function f (applyDelays ds s).1).delay_list.sum := by
  obtain ⟨h1, h2, h3, h4, h5⟩ := applyDelays_spec ds vs s hp
  obtain ⟨g1, g2, g3, g4, _, _⟩ := schedule_function_proj f (applyDelays ds s).1
  refine ⟨h1, ?_, g3, ?_⟩
  · rw [g1, List.getLast?_concat, h2, h0, zero_add]
  · rw [g4, g1]

/-- C3: starting a run anchors deadlines at the start instant `t0`:
every step before the cursor gets deadline `t0`, the step at the cursor
gets `t0` plus the carried-over `seconds_to_next_task`, every later step
gets the previous step's deadline plus its own relative delay, and
`end_time` is the final step's deadline. -/
theorem C3_deadline_plan (s : AutoState) (t0 : Int) (i : Nat)
    (h2 : s.automation_index < s.delay_list.length)
    (h3 : s.lambda_list.length = s.delay_list.length) :
    (i < s.automation_index →
      tickField (fun r => r.state.absolute_time_list.get? i)
        (start_automated_tasks true t0 s) = some (some t0))
    ∧ tickField (fun r => r.state.absolute_time_list.get? s.automation_index)
        (start_automated_tasks true t0 s) = some (some (t0 + s.seconds_to_next_task))
    ∧ (s.automation_index < i → i < s.delay_list.length →
        tickField (fun r => r.state.absolute_time_list.getD i 0)
          (start_automated_tasks true t0 s)
          = tickField (fun r => r.state.absolute_time_list.getD (i - 1) 0
              + s.delay_list.getD i 0) (start_automated_tasks true t0 s))
    ∧ tickField (fun r => r.state.end_time) (start_automated_tasks true t0 s)
        = tickField (fun r => r.state.absolute_time_list.getD
            (r.state.absolute_time_list.length - 1) 0)
            (start_automated_tasks true t0 s) := by
  obtain ⟨r, hr, habs, hend⟩ := start_ok s t0 h2 h3
  rw [hr]
  refine ⟨fun hi => ?_, ?_, fun hi1 hi2 => ?_, ?_⟩
  · show some (r.state.absolute_time_list.get? i) = some (some t0)
    rw [habs, startPrep_abs_get?_before t0 s i hi]
  · show some (r.state.absolute_time_list.get? s.automation_index)
      = some (some (t0 + s.seconds_to_next_task))
    rw [habs, startPrep_abs_get?_cursor t0 s]
    have hcomm : s.seconds_to_next_task + t0 = t0 + s.seconds_to_next_task := by ring
    rw [hcomm]
  · show some (r.state.absolute_time_list.getD i 0)
      = some (r.state.absolute_time_list.getD (i - 1) 0 + s.delay_list.getD i 0)
    rw [habs, startPrep_abs_rec t0 s i h2 hi1 hi2]
  · show some r.state.end_time
      = some (r.state.absolute_time_list.getD (r.state.absolute_time_list.length - 1) 0)
    rw [hend, habs, startPrep_end_time]

/-- C3 witness: the deadline plan of a concrete three-step queue resumed
from cursor 1 with 7 seconds left, started at time 100. -/
theorem C3_deadline_plan_witness :
    tickField (fun r => r.state.absolute_time_list.get? 0)
      (start_automated_tasks true 100 c3State) = some (some 100)
    ∧ tickField (fun r => r.state.absolute_time_list.get? c3State.automation_index)
        (start_automated_tasks true 100 c3State)
      = some (some (100 + c3State.seconds_to_next_task))
    ∧ tickField (fun r => r.state.absolute_time_list.getD 2 0)
        (start_automated_tasks true 100 c3State)
      = tickField (fun r => r.state.absolute_time_list.getD (2 - 1) 0
          + c3State.delay_list.getD 2 0) (start_automated_tasks true 100 c3State)
    ∧ tickField (fun r => r.state.end_time) (start_automated_tasks true 100 c3State)
      = tickField (fun r => r.state.absolute_time_list.getD
          (r.state.absolute_time_list.length - 1) 0)
          (start_automated_tasks true 100 c3State) :=
  ⟨(C3_deadline_plan c3State 100 0 (by decide) (by decide)).1 (by decide),
   (C3_deadline_plan c3State 100 0 (by decide) (by decide)).2.1,
   (C3_deadline_plan c3State 100 2 (by decide) (by decide)).2.2.1 (by decide) (by decide),
   (C3_deadline_plan c3State 100 0 (by decide) (by decide)).2.2.2⟩

/-- C4: pausing only flips the pause flag — cursor, stored deadlines and
the countdown are untouched — and resuming at time `tr` via start gives
the in-flight step a deadline `tr` plus the remaining countdown `S`,
while every later step's deadline still exceeds its predecessor's by
exactly that step's own relative delay. -/
theorem C4_pause_resume (s : AutoState) (tr : Int) (i : Nat)
    (h2 : s.automation_index < s.delay_list.length)
    (h3 : s.lambda_list.length = s.delay_list.length) :
    (pause_automated_tasks s).automation_index = s.automation_index
    ∧ (pause_automated_tasks s).absolute_time_list = s.absolute_time_list
    ∧ (pause_automated_tasks s).seconds_to_next_task = s.seconds_to_next_task
    ∧ (pause_automated_tasks s).delay_list = s.delay_list
    ∧ tickField (fun r => r.state.absolute_time_list.get? s.automation_index)
        (start_automated_tasks true tr (pause_automated_tasks s))
      = some (some (tr + s.seconds_to_next_task))
    ∧ (s.automation_index < i → i < s.delay_list.length →
        tickField (fun r => r.state.absolute_time_list.getD i 0)
          (start_automated_tasks true tr (pause_automated_tasks s))
          = tickField (fun r => r.state.absolute_time_list.getD (i - 1) 0
              + s.delay_list.getD i 0)
              (start_automated_tasks true tr (pause_automated_tasks s))) := by
  obtain ⟨r, hr, habs, _⟩ := start_ok (pause_automated_tasks s) tr h2 h3
  rw [hr]
  refine ⟨rfl, rfl, rfl, rfl, ?_, fun hi1 hi2 => ?_⟩
  · show some (r.state.absolute_time_list.get? s.automation_index)
      = some (some (tr + s.seconds_to_next_task))
    rw [habs]
    show some ((startPrep tr (pause_automated_tasks s)).absolute_time_list.get?
        (pause_automated_tasks s).automation_index)
      = some (some (tr + s.seconds_to_next_task))
    rw [startPrep_abs_get?_cursor tr (pause_automated_tasks s)]
    have hcomm : s.seconds_to_next_task + tr = tr + s.seconds_to_next_task := by ring
    show some (some (s.seconds_to_next_task + tr)) = some (some (tr + s.seconds_to_next_task))
    rw [hcomm]
  · show some (r.state.absolute_time_list.getD i 0)
      = some (r.state.absolute_time_list.getD (i - 1) 0 + s.delay_list.getD i 0)
    rw [habs, startPrep_abs_rec tr (pause_automated_tasks s) i h2 hi1 hi2]
    rfl

/-- C4 witness: pause and resume at time 1000 of a three-step queue with
7 seconds left on the step at cursor 1. -/
theorem C4_pause_resume_witness :
    (pause_automated_tasks c3State).automation_index = c3State.automation_index
    ∧ (pause_automated_tasks c3State).absolute_time_list = c3State.absolute_time_list
    ∧ (pause_automated_tasks c3State).seconds_to_next_task = c3State.seconds_to_next_task
    ∧ (pause_automated_tasks c3State).delay_list = c3State.delay_list
    ∧ tickField (fun r => r.state.absolute_time_list.get? c3State.automation_index)
        (start_automated_tasks true 1000 (pause_automated_tasks c3State))
      = some (some (1000 + c3State.seconds_to_next_task))
    ∧ tickField (fun r => r.state.absolute_time_list.getD 2 0)
        (start_automated_tasks true 1000 (pause_automated_tasks c3State))
      = tickField (fun r => r.state.absolute_time_list.getD (2 - 1) 0
          + c3State.delay_list.getD 2 0)
          (start_automated_tasks true 1000 (pause_automated_tasks c3State)) := by
  obtain ⟨e1, e2, e3, e4, e5, e6⟩ :=
    C4_pause_resume c3State 1000 2 (by decide) (by decide)
  exact ⟨e1, e2, e3, e4, e5, e6 (by decide) (by decide)⟩

/-- C5: an action that raises during a tick is caught (the raise becomes
a logged event), the run is not aborted (the tick returns normally, the
cursor advances, a next tick is scheduled); concretely, for the loaded
script `[f_throws, f_ok]` the first tick logs the error and the second
tick runs `f_ok` and reaches the finished state with no further tick. -/
theorem C5_raise_caught :
    (∀ (s : AutoState) (now dl : Int) (id : Nat),
      s.pause_tasks = false →
      s.absolute_time_list.get? s.automation_index = some dl →
      now > dl →
      s.lambda_list.get? s.automation_index = some (AutoAction.userThrows id) →
      s.automation_index + 1 < s.delay_list.length →
      tickField TickResult.events (update_tasks s now)
          = some [Event.errorLogged s.automation_index]
      ∧ tickField (fun r => r.state.automation_index) (update_tasks s now)
          = some (s.automation_index + 1)
      ∧ tickField (fun r => Option.isSome r.next) (update_tasks s now) = some true)
    ∧ tickField TickResult.events c5Mid = some [Event.errorLogged 0]
    ∧ tickField (fun r => r.state.automation_index) c5Mid = some 1
    ∧ tickField TickResult.events c5Run = some [Event.ran 1]
    ∧ tickField (fun r => r.state.pause_tasks) c5Run = some true
    ∧ tickField (fun r => r.state.automation_running_label) c5Run = some ("(finished!)")
    ∧ tickField TickResult.next c5Run = some none := by
  constructor
  · intro s now dl id hp ha hn hl hlt
    rw [update_tasks_due_mid s now dl (AutoAction.userThrows id) hp ha hn hl hlt]
    refine ⟨?_, ?_, ?_⟩
    · show some ((tickTail
        { s with automation_index := s.automation_index + 1
                 lines_loaded := linesDone (s.automation_index + 1) s.delay_list.length
                 seconds_to_next_task := s.delay_list.getD (s.automation_index + 1) 0 }
        now (execEvents (AutoAction.userThrows id) s.automation_index)).events) = _
      rw [(tickTail_state_eq _ now _).2.2.2.2.2.2.2]
      rfl
    · show some ((tickTail
        { s with automation_index := s.automation_index + 1
                 lines_loaded := linesDone (s.automation_index + 1) s.delay_list.length
                 seconds_to_next_task := s.delay_list.getD (s.automation_index + 1) 0 }
        now (execEvents (AutoAction.userThrows id) s.automation_index)).state.automation_index) = _
      rw [(tickTail_state_eq _ now _).1]
    · show some (Option.isSome (tickTail
        { s with automation_index := s.automation_index + 1
                 lines_loaded := linesDone (s.automation_index + 1) s.delay_list.length
                 seconds_to_next_task := s.delay_list.getD (s.automation_index + 1) 0 }
        now (execEvents (AutoAction.userThrows id) s.automation_index)).next) = some true
      rw [tickTail_next]
      split
      · rfl
      · rfl
  · exact ⟨by decide, by decide, by decide, by decide, by decide, by decide⟩

/-- C5 witness: the caught-raise tick behaviour at a concrete two-step
state whose current action raises. -/
theorem C5_raise_caught_witness :
    tickField TickResult.events (update_tasks c5State 1)
        = some [Event.errorLogged c5State.automation_index]
    ∧ tickField (fun r => r.state.automation_index) (update_tasks c5State 1)
        = some (c5State.automation_index + 1)
    ∧ tickField (fun r => Option.isSome r.next) (update_tasks c5State 1) = some true :=
  C5_raise_caught.1 c5State 1 0 7 (by decide) (by decide) (by decide) (by decide) (by decide)

/-- C7: for every successfully loaded script with at least one step (and
non-negative delays), starting it and then ticking once per step at a
time past every deadline drives the run to the finished reset: cursor
back to 0, paused, "(finished!)" label, progress reading "0 of N",
`seconds_to_next_task` reloaded from step 0's raw delay, and no further
tick scheduled. -/
theorem C7_round_trip (dash : List (String × List String)) (script : List ScriptStmt)
    (fn : String) (s0 : AutoState) (t0 now : Int)
    (hok : (load_automation_file dash script fn s0).2 = none)
    (hne : (load_automation_file dash script fn s0).1.delay_list ≠ [])
    (hnn : ∀ d ∈ (load_automation_file dash script fn s0).1.delay_list, 0 ≤ d)
    (hdue : tickField (fun r => r.state.absolute_time_list.all (fun d => now > d))
        (start_automated_tasks true t0 (load_automation_file dash script fn s0).1)
      = some true) :
    tickField (fun r => r.state.automation_index)
        (loadStartRun dash script fn s0 t0 now) = some 0
    ∧ tickField (fun r => r.state.pause_tasks)
        (loadStartRun dash script fn s0 t0 now) = some true
    ∧ tickField (fun r => r.state.automation_running_label)
        (loadStartRun dash script fn s0 t0 now) = some ("(finished!)")
    ∧ tickField (fun r => r.state.lines_loaded)
        (loadStartRun dash script fn s0 t0 now)
      = some (linesDone 0 (load_automation_file dash script fn s0).1.delay_list.length)
    ∧ tickField (fun r => r.state.seconds_to_next_task)
        (loadStartRun dash script fn s0 t0 now)
      = some ((load_automation_file dash script fn s0).1.delay_list.headD 0)
    ∧ tickField TickResult.next (loadStartRun dash script fn s0 t0 now) = some none := by
  obtain ⟨i0, ipause, ilen, isstt⟩ := load_inv dash script fn s0 hok
  set L := (load_automation_file dash script fn s0).1 with hL
  have hn0 : L.delay_list.length ≠ 0 := fun h => hne (List.length_eq_zero.mp h)
  have hidx : L.automation_index < L.delay_list.length := by rw [i0]; omega
  have hLsstt : L.seconds_to_next_task = L.delay_list.headD 0 := by
    rw [isstt, if_neg hn0]
  have hsnn : 0 ≤ L.seconds_to_next_task := by
    rw [hLsstt]
    cases hd : L.delay_list with
    | nil => exact absurd hd hne
    | cons a t =>
      have ha := hnn a (by rw [hd]; exact List.mem_cons_self a t)
      show (0 : Int) ≤ (a :: t).headD 0
      exact ha
  have hstart := start_eq L t0 hn0
  have hcur := startPrep_abs_get?_cursor t0 L
  have hnotdue : ¬ t0 > L.seconds_to_next_task + t0 := by omega
  have htick := update_tasks_notdue (startPrep t0 L) t0 (L.seconds_to_next_task + t0)
      (startPrep_pause t0 L) hcur hnotdue
  obtain ⟨q0, q1, q2, q3, q4, _, _, _⟩ := tickTail_state_eq
    { startPrep t0 L with seconds_to_next_task := L.seconds_to_next_task + t0 - t0 } t0 []
  set r0 := tickTail
    { startPrep t0 L with seconds_to_next_task := L.seconds_to_next_task + t0 - t0 }
    t0 [] with hr0
  rw [hstart, htick] at hdue
  have hall : ∀ d ∈ r0.state.absolute_time_list, now > d := by
    have h2 : r0.state.absolute_time_list.all (fun d => decide (now > d)) = true :=
      Option.some.inj hdue
    intro d hdm
    exact of_decide_eq_true (List.all_eq_true.mp h2 d hdm)
  have habslen : r0.state.absolute_time_list.length = r0.state.delay_list.length := by
    rw [q3, q2]
    show (startPrep t0 L).absolute_time_list.length = (startPrep t0 L).delay_list.length
    rw [startPrep_delay_list, startPrep_abs_length t0 L hidx]
  have hlamlen : r0.state.lambda_list.length = r0.state.delay_list.length := by
    rw [q4, q2]
    show (startPrep t0 L).lambda_list.length = (startPrep t0 L).delay_list.length
    rw [startPrep_lambda_list, startPrep_delay_list, ilen]
  have hpause0 : r0.state.pause_tasks = false := by
    rw [q1]
    exact startPrep_pause t0 L
  have hidx0 : r0.state.automation_index = 0 := by
    rw [q0]
    show L.automation_index = 0
    exact i0
  have hcnt : r0.state.automation_index + ((L.delay_list.length - 1) + 1)
      = r0.state.delay_list.length := by
    rw [hidx0, q2]
    show 0 + (L.delay_list.length - 1 + 1) = L.delay_list.length
    omega
  obtain ⟨r, hrun, hnext, hdl, hridx, hrpause, hrsstt, _, hrlines, hrlabel⟩ :=
    runTicks_finish (L.delay_list.length - 1) r0.state now hpause0 habslen hlamlen hcnt hall
  have hfinal : loadStartRun dash script fn s0 t0 now = Except.ok r := by
    show (start_automated_tasks true t0 L).bind
        (fun r2 => runTicks now (L.delay_list.length - 1) r2.state) = Except.ok r
    rw [hstart, htick]
    exact hrun
  rw [hfinal]
  refine ⟨?_, ?_, ?_, ?_, ?_, ?_⟩
  · show some r.state.automation_index = some 0
    rw [hridx]
  · show some r.state.pause_tasks = some true
    rw [hrpause]
  · show some r.state.automation_running_label = some ("(finished!)")
    rw [hrlabel]
  · show some r.state.lines_loaded = some (linesDone 0 L.delay_list.length)
    rw [hrlines, q2]
    rfl
  · show some r.state.seconds_to_next_task = some (L.delay_list.headD 0)
    rw [hrsstt, q2]
    show some (if L.delay_list.length = 0 then 0 else L.delay_list.headD 0)
      = some (L.delay_list.headD 0)
    rw [if_neg hn0]
  · show some r.next = some none
    rw [hnext]

/-- C7 witness: a one-step script loaded, started at time 0 and run to
completion at time 5. -/
theorem C7_round_trip_witness :
    tickField (fun r => r.state.automation_index)
        (loadStartRun [] [ScriptStmt.func (AutoAction.userOk 3)] ("a") initState 0 5)
      = some 0
    ∧ tickField (fun r => r.state.pause_tasks)
        (loadStartRun [] [ScriptStmt.func (AutoAction.userOk 3)] ("a") initState 0 5)
      = some true
    ∧ tickField (fun r => r.state.automation_running_label)
        (loadStartRun [] [ScriptStmt.func (AutoAction.userOk 3)] ("a") initState 0 5)
      = some ("(finished!)")
    ∧ tickField (fun r => r.state.lines_loaded)
        (loadStartRun [] [ScriptStmt.func (AutoAction.userOk 3)] ("a") initState 0 5)
      = some (linesDone 0 (load_automation_file []
          [ScriptStmt.func (AutoAction.userOk 3)] ("a") initState).1.delay_list.length)
    ∧ tickField (fun r => r.state.seconds_to_next_task)
        (loadStartRun [] [ScriptStmt.func (AutoAction.userOk 3)] ("a") initState 0 5)
      = some ((load_automation_file []
          [ScriptStmt.func (AutoAction.userOk 3)] ("a") initState).1.delay_list.headD 0)
    ∧ tickField TickResult.next
        (loadStartRun [] [ScriptStmt.func (AutoAction.userOk 3)] ("a") initState 0 5)
      = some none :=
  C7_round_trip [] [ScriptStmt.func (AutoAction.userOk 3)] ("a") initState 0 5
    (by decide) (by decide) (by decide) (by decide)

/-- C6 witness: two delays of 2 and 3 seconds followed by one scheduled
function produce a step with relative delay 5. -/
theorem C6_delay_accumulation_witness :
    (applyDelays [("0:00:02"), ("0:00:03")] initState).2 = none
    ∧ (schedule_function (AutoAction.userOk 0)
        (applyDelays [("0:00:02"), ("0:00:03")] initState).1).delay_list.getLast?
      = some ([2, 3] : List Int).sum
    ∧ (schedule_function (AutoAction.userOk 0)
        (applyDelays [("0:00:02"), ("0:00:03")] initState).1).delay_for_loading = 0
    ∧ (schedule_function (AutoAction.userOk 0)
        (applyDelays [("0:00:02"), ("0:00:03")] initState).1).time_to_go
      = (schedule_function (AutoAction.userOk 0)
          (applyDelays [("0:00:02"), ("0:00:03")] initState).1).delay_list.sum :=
  C6_delay_accumulation [("0:00:02"), ("0:00:03")] [2, 3] (AutoAction.userOk 0) initState
    (by decide) (by decide)

end RichardView
